import Mathlib

/-!
Verification of `bokeh/core/state.py`: the `State` class that tracks
implicit output configuration (active `Document`, file / notebook / server
output modes, session coordinates).

The module under `src/` is `state.py` alone.  Its collaborators
(`Document`, `Resources`, `_SessionCoordinates`) live elsewhere in the
repository, so they are modelled from the specification, as noted on each
definition.  Python object allocation (`Document()`) is modelled with an
explicit allocation counter threaded through the operations: a call that
constructs a fresh `Document` receives the counter `n`, uses id `n` for
the new object and returns `n + 1`.  The filesystem probe
`os.path.isfile` is modelled as a boolean predicate on filenames passed
as an argument, and `logger.info` as a list of emitted log records
returned alongside the new state.
-/

/-- Modelled from the spec: `Document` is an external collaborator, a
"shared container of plotting model objects", owned exclusively by the
state holder and replaced wholesale on reset.  Only object identity
matters here, so a `Document` is its allocation id. -/
structure Document where
  id : Nat
deriving DecidableEq

/-- Allocate a fresh `Document` given the allocation counter, returning
the new document and the bumped counter.  Models the Python expression
`Document()`. -/
def Document.new (n : Nat) : Document × Nat :=
  (Document.mk n, n + 1)

/-- Modelled from the spec: `Resources` is "configuration describing how
client-side assets are included"; `output_file` constructs it from the
`mode` and `root_dir` arguments (`Resources(mode=mode, root_dir=root_dir)`). -/
structure Resources where
  mode : String
  root_dir : Option String
deriving DecidableEq

/-- The file-output configuration dict built by `State.output_file`:
`{'filename': ..., 'resources': ..., 'title': ...}` (the spec calls it
`OutputFileConfig`). -/
structure OutputFileConfig where
  filename : String
  resources : Resources
  title : String
deriving DecidableEq

/-- Modelled from the spec: `_SessionCoordinates` holds
`{sessionId, url, appPath}`, "derived/deprecated session addressing
info", constructed from a dict that may lack any of the entries. -/
structure _SessionCoordinates where
  session_id_arg : Option String
  url_arg : Option String
  app_path_arg : Option String
deriving DecidableEq

/-- Modelled from the spec: construction from a Python dict with optional
`session_id`, `url` and `app_path` entries; `_SessionCoordinates(dict())`
is `ofDict none none none`. -/
def _SessionCoordinates.ofDict (session_id url app_path : Option String) :
    _SessionCoordinates :=
  ⟨session_id, url, app_path⟩

/-- Modelled from the spec: the session id stored in the coordinates
("session id readable"). -/
def _SessionCoordinates.session_id (c : _SessionCoordinates) : Option String :=
  c.session_id_arg

/-- Modelled from the spec: the none-tolerant variant of the session id
accessor. -/
def _SessionCoordinates.session_id_allowing_none (c : _SessionCoordinates) :
    Option String :=
  c.session_id_arg

/-- Modelled from the spec: the base URL (not including any app path). -/
def _SessionCoordinates.url (c : _SessionCoordinates) : Option String :=
  c.url_arg

/-- Modelled from the spec: the relative app path. -/
def _SessionCoordinates.app_path (c : _SessionCoordinates) : Option String :=
  c.app_path_arg

/-- Modelled from the spec: the full URL "(including the app path)" for a
server app, available once both parts are. -/
def _SessionCoordinates.server_url (c : _SessionCoordinates) : Option String :=
  match c.url_arg, c.app_path_arg with
  | some u, some a => some (u ++ a)
  | _, _ => none

/-- Severity of an emitted log record; `state.py` only ever logs at the
informational level. -/
inductive LogLevel where
  | info
deriving DecidableEq

/-- A log record emitted by `State.output_file` when the target file
already exists on disk. -/
structure LogRecord where
  level : LogLevel
  filename : String
deriving DecidableEq

/-- The `State` object of `bokeh/core/state.py`: its five private fields
plus the public `last_comms_handle` attribute (only ever set to `None`
in this module, so its payload type is irrelevant). -/
structure State where
  last_comms_handle : Option Unit
  _document : Document
  _file : Option OutputFileConfig
  _notebook : Bool
  _session_coords : _SessionCoordinates
  _server_enabled : Bool
deriving DecidableEq

/-- Property `State.document` (getter). -/
def State.document (s : State) : Document :=
  s._document

/-- Property `State.document` (setter): `self._document = doc`. -/
def State.document_set (s : State) (doc : Document) : State :=
  { s with _document := doc }

/-- Property `State.file` (READ ONLY). -/
def State.file (s : State) : Option OutputFileConfig :=
  s._file

/-- Property `State.notebook` (READ ONLY). -/
def State.notebook (s : State) : Bool :=
  s._notebook

/-- Property `State.server_enabled` (READ ONLY). -/
def State.server_enabled (s : State) : Bool :=
  s._server_enabled

/-- Property `State.session_id` (READ ONLY): delegates to the session
coordinates. -/
def State.session_id (s : State) : Option String :=
  s._session_coords.session_id

/-- Property `State.session_id_allowing_none` (READ ONLY). -/
def State.session_id_allowing_none (s : State) : Option String :=
  s._session_coords.session_id_allowing_none

/-- Property `State.url` (READ ONLY). -/
def State.url (s : State) : Option String :=
  s._session_coords.url

/-- Property `State.server_url` (READ ONLY). -/
def State.server_url (s : State) : Option String :=
  s._session_coords.server_url

/-- Property `State.app_path` (READ ONLY). -/
def State.app_path (s : State) : Option String :=
  s._session_coords.app_path

/-- Method `State._reset_keeping_doc`: reset output modes but do not
replace the default `Document`. -/
def State._reset_keeping_doc (s : State) : State :=
  { s with
      _file := none
      _notebook := false
      _session_coords := _SessionCoordinates.ofDict none none none
      _server_enabled := false }

/-- Method `State._reset_with_doc`: reset output modes and replace the
default `Document` with `doc`. -/
def State._reset_with_doc (s : State) (doc : Document) : State :=
  { s with _document := doc }._reset_keeping_doc

/-- Method `State.reset`: deactivate all output modes and install a fresh
empty `Document` (`self._reset_with_doc(Document())`); `n` is the
allocation counter. -/
def State.reset (s : State) (n : Nat) : State × Nat :=
  let alloc := Document.new n
  (s._reset_with_doc alloc.1, alloc.2)

/-- Constructor `State.__init__`: sets `last_comms_handle = None`, then
calls `self.reset()`.  Before `reset` runs no field has been assigned in
Python; since `reset` overwrites every field except `last_comms_handle`,
the pre-`reset` field values below are arbitrary placeholders that do not
survive into the result. -/
def State.new (n : Nat) : State × Nat :=
  State.reset
    { last_comms_handle := none
      _document := Document.mk n
      _file := none
      _notebook := false
      _session_coords := _SessionCoordinates.ofDict none none none
      _server_enabled := false } n

/-- Method `State.output_file`: sets `self._file` to the configuration
dict, then logs an informational note when `os.path.isfile(filename)`
holds.  `isfile` models the filesystem probe; the emitted log records are
returned alongside the new state. -/
def State.output_file (s : State) (filename title mode : String)
    (root_dir : Option String) (isfile : String → Bool) :
    State × List LogRecord :=
  let s' := { s with
      _file := some
        { filename := filename
          resources := { mode := mode, root_dir := root_dir }
          title := title } }
  (s', if isfile filename then [{ level := LogLevel.info, filename := filename }] else [])

/-- Method `State.output_notebook`: sets the notebook flag. -/
def State.output_notebook (s : State) : State :=
  { s with _notebook := true }

/-- Method `State.output_server`: stores the session coordinates built
from the three arguments and marks server output enabled. -/
def State.output_server (s : State) (session_id url app_path : String) : State :=
  { s with
      _session_coords :=
        _SessionCoordinates.ofDict (some session_id) (some url) (some app_path)
      _server_enabled := true }

/-- C1: for every `State`, after calling `reset()` the file configuration
is `None`, the notebook flag is `False`, the server-enabled flag is
`False`, and the session coordinates are the ones constructed from an
empty dict. -/
theorem C1_reset_clears_output_modes (s : State) (n : Nat) :
    ((s.reset n).1).file = none ∧
    ((s.reset n).1).notebook = false ∧
    ((s.reset n).1).server_enabled = false ∧
    ((s.reset n).1)._session_coords = _SessionCoordinates.ofDict none none none :=
  ⟨rfl, rfl, rfl, rfl⟩

/-- C2: calling `output_file(a)` and then `output_file(b)` leaves the file
configuration equal to the one produced by the second call alone: its
`filename` entry is `b` and nothing of the first call's configuration
survives (last-write-wins, no merging).  Stated for arbitrary titles,
modes and root dirs, which covers the default arguments. -/
theorem C2_output_file_last_write_wins
    (s : State) (a b t1 m1 t2 m2 : String) (r1 r2 : Option String)
    (isfile : String → Bool) :
    (((s.output_file a t1 m1 r1 isfile).1.output_file b t2 m2 r2 isfile).1).file
      = ((s.output_file b t2 m2 r2 isfile).1).file ∧
    (((s.output_file a t1 m1 r1 isfile).1.output_file b t2 m2 r2 isfile).1).file
      = some { filename := b, resources := { mode := m2, root_dir := r2 }, title := t2 } :=
  ⟨rfl, rfl⟩

/-- C3: calling `output_notebook()` and then `output_file(...)` leaves
both output modes active simultaneously: the notebook flag is `True` and
the file configuration is the one set by `output_file`. -/
theorem C3_notebook_then_file_both_active
    (s : State) (f t m : String) (r : Option String) (isfile : String → Bool) :
    ((s.output_notebook.output_file f t m r isfile).1).notebook = true ∧
    ((s.output_notebook.output_file f t m r isfile).1).file
      = some { filename := f, resources := { mode := m, root_dir := r }, title := t } :=
  ⟨rfl, rfl⟩

/-- C4: `output_file(filename, title, mode, root_dir)` changes only the
file configuration field: the document, the notebook flag, the session
coordinates and the server-enabled flag are unchanged. -/
theorem C4_output_file_frame
    (s : State) (f t m : String) (r : Option String) (isfile : String → Bool) :
    ((s.output_file f t m r isfile).1).document = s.document ∧
    ((s.output_file f t m r isfile).1).notebook = s.notebook ∧
    ((s.output_file f t m r isfile).1)._session_coords = s._session_coords ∧
    ((s.output_file f t m r isfile).1).server_enabled = s.server_enabled :=
  ⟨rfl, rfl, rfl, rfl⟩

/-- C5: calling `output_server(session_id="x")` (with the default url and
app path) sets the server-enabled flag to `True` and afterwards the
`session_id` property reads back as `"x"`. -/
theorem C5_output_server_sets_session (s : State) :
    (s.output_server "x" "default" "/").server_enabled = true ∧
    (s.output_server "x" "default" "/").session_id = some "x" :=
  ⟨rfl, rfl⟩

/-- C6 counterexample: the claim that the exposed state can only be
modified through `reset`, `output_file`, `output_notebook` and
`output_server` is false: the `document` property also has a public
setter, and using it on a freshly constructed `State` changes the value
the `document` accessor exposes. -/
theorem C6_counterexample :
    ¬ (((State.new 0).1.document_set (Document.mk 1)).document
        = (State.new 0).1.document) := by
  decide

/-- C6 (amended): the accessors `file`, `notebook`, `server_enabled`,
`session_id`, `session_id_allowing_none`, `url`, `server_url` and
`app_path` are read-only, but `document` additionally has a public
setter; the setter mutates exactly the exposed document, leaving every
other accessor unchanged, so the exposed state is modified only through
`reset`, `output_file`, `output_notebook`, `output_server` and the
`document` setter. -/
theorem C6_document_setter_is_extra_mutator (s : State) (d : Document) :
    (s.document_set d).document = d ∧
    (s.document_set d).file = s.file ∧
    (s.document_set d).notebook = s.notebook ∧
    (s.document_set d).server_enabled = s.server_enabled ∧
    (s.document_set d).session_id = s.session_id ∧
    (s.document_set d).session_id_allowing_none = s.session_id_allowing_none ∧
    (s.document_set d).url = s.url ∧
    (s.document_set d).server_url = s.server_url ∧
    (s.document_set d).app_path = s.app_path :=
  ⟨rfl, rfl, rfl, rfl, rfl, rfl, rfl, rfl, rfl⟩

/-- C7: every call to `reset()` installs a newly constructed `Document`
distinct from the one held before the call, and distinct from the one
installed by any other reset call (here: the immediately following one).
The hypothesis states that the allocation counter is fresh, i.e. larger
than the id of every already-allocated document. -/
theorem C7_reset_installs_distinct_document
    (s : State) (n : Nat) (h : s._document.id < n) :
    ((s.reset n).1)._document ≠ s._document ∧
    (((s.reset n).1.reset (s.reset n).2).1)._document ≠ ((s.reset n).1)._document ∧
    (((s.reset n).1.reset (s.reset n).2).1)._document ≠ s._document := by
  have h1 : ((s.reset n).1)._document = Document.mk n := rfl
  have h3 : (((s.reset n).1.reset (s.reset n).2).1)._document = Document.mk (n + 1) := rfl
  refine ⟨?_, ?_, ?_⟩
  · rw [h1]
    intro heq
    have hid := congrArg Document.id heq
    simp only at hid
    omega
  · rw [h3, h1]
    simp
  · rw [h3]
    intro heq
    have hid := congrArg Document.id heq
    simp only at hid
    omega

/-- C7 witness: the theorem applied to a freshly constructed `State`
(whose document has id 0) with allocation counter 1. -/
theorem C7_reset_installs_distinct_document_witness :
    ((State.new 0).1)._document.id < 1 ∧
    (((State.new 0).1.reset 1).1)._document ≠ ((State.new 0).1)._document ∧
    ((((State.new 0).1.reset 1).1.reset ((State.new 0).1.reset 1).2).1)._document
      ≠ (((State.new 0).1.reset 1).1)._document ∧
    ((((State.new 0).1.reset 1).1.reset ((State.new 0).1.reset 1).2).1)._document
      ≠ ((State.new 0).1)._document :=
  ⟨by decide, C7_reset_installs_distinct_document ((State.new 0).1) 1 (by decide)⟩

/-- C8: `_reset_keeping_doc` clears all output modes (file configuration
to `None`, notebook flag to `False`, session coordinates to the ones of
an empty dict, server-enabled flag to `False`) while leaving the owned
`Document` unchanged. -/
theorem C8_reset_keeping_doc_preserves_document (s : State) :
    (s._reset_keeping_doc).file = none ∧
    (s._reset_keeping_doc).notebook = false ∧
    (s._reset_keeping_doc)._session_coords = _SessionCoordinates.ofDict none none none ∧
    (s._reset_keeping_doc).server_enabled = false ∧
    (s._reset_keeping_doc).document = s.document :=
  ⟨rfl, rfl, rfl, rfl, rfl⟩

/-- C9: `output_file` never fails when the target file already exists:
for every filename and every state of the filesystem the file
configuration is set to the new values and the operation returns
normally (the resulting state does not depend on the filesystem at all);
an existing file triggers exactly one informational log record and a
missing one triggers none, and every emitted record is informational. -/
theorem C9_output_file_existing_file_only_logs
    (s : State) (f t m : String) (r : Option String) (isfile : String → Bool) :
    ((s.output_file f t m r isfile).1).file
      = some { filename := f, resources := { mode := m, root_dir := r }, title := t } ∧
    (s.output_file f t m r isfile).1 = (s.output_file f t m r (fun _ => false)).1 ∧
    (s.output_file f t m r isfile).2
      = (if isfile f then [{ level := LogLevel.info, filename := f }] else []) ∧
    ∀ entry ∈ (s.output_file f t m r isfile).2, entry.level = LogLevel.info := by
  refine ⟨rfl, rfl, rfl, ?_⟩
  intro entry hentry
  by_cases hf : isfile f
  · simp [State.output_file, hf] at hentry
    simp [hentry]
  · simp [State.output_file, hf] at hentry

/-- C10: a newly constructed `State` is already in the fully reset
configuration: it owns the freshly allocated `Document` (the allocation
counter is consumed and bumped), its file configuration is `None`, its
notebook flag is `False`, its session coordinates are empty, its
server-enabled flag is `False`, and its `last_comms_handle` attribute is
`None`. -/
theorem C10_fresh_state_is_reset (n : Nat) :
    ((State.new n).1).file = none ∧
    ((State.new n).1).notebook = false ∧
    ((State.new n).1)._session_coords = _SessionCoordinates.ofDict none none none ∧
    ((State.new n).1).server_enabled = false ∧
    ((State.new n).1).last_comms_handle = none ∧
    ((State.new n).1).document = Document.mk n ∧
    (State.new n).2 = n + 1 :=
  ⟨rfl, rfl, rfl, rfl, rfl, rfl, rfl⟩
